import Mathlib

/-!
# Verification of the Portfolio Construction & Financial Projection Engine

Shallow embedding, in exact rational arithmetic, of the numerical core of the
financial-planner repository:

* `src/api/financial_calculator.py` — closed-form retirement calculator;
* `src/portfolio_optimizer.py` — returns/covariance estimator, constrained
  mean-variance optimizer post-processing, efficient-frontier sweep;
* `src/api/investment_database.py` — synthetic market-data generator,
  performance-metrics calculator, database refresh.

Python `float` values are modelled as `ℚ`; a Python division whose denominator
can be zero at runtime (raising `ZeroDivisionError`) is modelled by `pydiv`,
which returns `none` exactly when the denominator is zero.  Transcendental
primitives of the source (`np.sin`, `np.sqrt`, `np.std` inside the price
generator) are taken as function parameters of the embedding, so every
definition stays computable; everything else is translated literally.
-/

/-- Python float division: raises `ZeroDivisionError` on a zero denominator,
modelled by `none`. -/
def pydiv (a b : ℚ) : Option ℚ :=
  if b = 0 then none else some (a / b)

/-- `RetirementPlan` dataclass, `src/api/financial_calculator.py` lines 17-27.
Ages are integers, monetary amounts and rates are rationals. -/
structure RetirementPlan where
  currentAge : ℤ
  retirementAge : ℤ
  currentSavings : ℚ
  monthlyContribution : ℚ
  expectedReturn : ℚ
  inflation : ℚ := 3/100
  replacement : ℚ := 8/10
  lifeExpectancy : ℤ := 85
deriving DecidableEq

/-- The intermediate values computed by
`FinancialCalculator.calculate_retirement_needs`
(`src/api/financial_calculator.py` lines 35-87), before the final
2-decimal rounding applied to the returned dict.  Field names follow the
source's local variables. -/
structure RetirementInternals where
  yearsToRetirement : ℤ
  yearsInRetirement : ℤ
  futureRequiredIncome : ℚ
  realReturn : ℚ
  retirementCorpus : ℚ
  futureValueCurrentSavings : ℚ
  monthlyRate : ℚ
  monthsToRetirement : ℤ
  futureValueContributions : ℚ
  totalAccumulated : ℚ
  shortfall : ℚ
  requiredAdditionalMonthly : ℚ
  isOnTrack : Bool
deriving DecidableEq

/-- `FinancialCalculator.calculate_retirement_needs`
(`src/api/financial_calculator.py` lines 35-87), translated line by line.
Divisions whose denominator is a runtime value go through `pydiv`; `**` on a
possibly negative integer exponent is `zpow`.  Returns `none` exactly when the
Python code raises `ZeroDivisionError`. -/
def calcRetirementNeeds (plan : RetirementPlan) (currentAnnualIncome : ℚ) :
    Option RetirementInternals :=
  let yearsToRetirement : ℤ := plan.retirementAge - plan.currentAge
  let yearsInRetirement : ℤ := plan.lifeExpectancy - plan.retirementAge
  let requiredAnnualIncome := currentAnnualIncome * plan.replacement
  let futureRequiredIncome :=
    requiredAnnualIncome * (1 + plan.inflation) ^ yearsToRetirement
  match pydiv (plan.expectedReturn - plan.inflation) (1 + plan.inflation) with
  | none => none
  | some realReturn =>
    match
      (if 0 < realReturn then
        pydiv (futureRequiredIncome * (1 - (1 + realReturn) ^ (-yearsInRetirement)))
          realReturn
      else
        some (futureRequiredIncome * (yearsInRetirement : ℚ))) with
    | none => none
    | some retirementCorpus =>
      let futureValueCurrentSavings :=
        plan.currentSavings * (1 + plan.expectedReturn) ^ yearsToRetirement
      let monthlyRate := plan.expectedReturn / 12
      let monthsToRetirement : ℤ := yearsToRetirement * 12
      match
        (if 0 < monthlyRate then
          match pydiv ((1 + monthlyRate) ^ monthsToRetirement - 1) monthlyRate with
          | none => none
          | some annuityFactor => some (plan.monthlyContribution * annuityFactor)
        else
          some (plan.monthlyContribution * (monthsToRetirement : ℚ))) with
      | none => none
      | some futureValueContributions =>
        let totalAccumulated := futureValueCurrentSavings + futureValueContributions
        let shortfall := max 0 (retirementCorpus - totalAccumulated)
        match
          (if 0 < shortfall ∧ 0 < monthlyRate then
            match pydiv ((1 + monthlyRate) ^ monthsToRetirement - 1) monthlyRate with
            | none => none
            | some annuityFactor => pydiv shortfall annuityFactor
          else
            some (if 0 < monthsToRetirement then shortfall / (monthsToRetirement : ℚ)
                  else 0)) with
        | none => none
        | some requiredAdditionalMonthly =>
          some {
            yearsToRetirement := yearsToRetirement
            yearsInRetirement := yearsInRetirement
            futureRequiredIncome := futureRequiredIncome
            realReturn := realReturn
            retirementCorpus := retirementCorpus
            futureValueCurrentSavings := futureValueCurrentSavings
            monthlyRate := monthlyRate
            monthsToRetirement := monthsToRetirement
            futureValueContributions := futureValueContributions
            totalAccumulated := totalAccumulated
            shortfall := shortfall
            requiredAdditionalMonthly := requiredAdditionalMonthly
            isOnTrack := decide (shortfall ≤ 0) }

/-- A plan whose retirement age equals the current age, with a positive
expected return: the edge case of claim C3. -/
def c3Plan : RetirementPlan :=
  { currentAge := 65, retirementAge := 65, currentSavings := 0,
    monthlyContribution := 1000, expectedReturn := 8/100 }

/-- C3: the claim says `calculate_retirement_needs` never divides by zero when
`retirement_age = current_age`, completing via linear fallbacks even when the
shortfall is positive.  The code contradicts this: at
`RetirementPlan(current_age=65, retirement_age=65, current_savings=0,
monthly_contribution=1000, expected_return=0.08)` with income `80000`, the
shortfall is positive and `monthly_rate > 0`, so line 72 computes
`shortfall / (((1+monthly_rate)**0 - 1)/monthly_rate) = shortfall / 0`,
raising `ZeroDivisionError` (modelled as `none`). -/
theorem c3_zero_horizon_divides_by_zero :
    calcRetirementNeeds c3Plan 80000 = none := by
  simp only [calcRetirementNeeds, c3Plan, pydiv]
  norm_num

/-- C4: whenever `calculate_retirement_needs` completes, the computed
`shortfall` equals `max 0 (corpus_needed - (fv_savings + fv_contributions))`;
consequently, if the accumulated total covers the corpus then the shortfall is
zero and `is_on_track` is `True`, and a positive shortfall forces
`is_on_track = False`.  (The returned dict reports these quantities rounded to
2 decimals for display; the invariant is about the computed values, from which
`is_on_track` is derived at line 86.) -/
theorem c4_shortfall_max_and_on_track (plan : RetirementPlan) (income : ℚ)
    (r : RetirementInternals) (h : calcRetirementNeeds plan income = some r) :
    r.shortfall = max 0 (r.retirementCorpus - r.totalAccumulated) ∧
    (r.retirementCorpus ≤ r.totalAccumulated → r.shortfall = 0 ∧ r.isOnTrack = true) ∧
    (0 < r.shortfall → r.isOnTrack = false) := by
  simp only [calcRetirementNeeds] at h
  repeat' split at h
  all_goals first
  | exact Option.noConfusion h
  | · rw [Option.some_inj] at h
      subst h
      refine ⟨rfl, fun hc => ?_, fun hs => ?_⟩
      · have hle : _ - _ ≤ (0 : ℚ) := sub_nonpos.mpr hc
        refine ⟨max_eq_left hle, ?_⟩
        simp [max_eq_left hle]
      · simp only [decide_eq_false_iff_not, not_le]
        exact hs

/-- Concrete plan exercising C4: one year to retirement, zero expected return,
zero inflation, one year in retirement. -/
def c4Plan : RetirementPlan :=
  { currentAge := 64, retirementAge := 65, currentSavings := 100,
    monthlyContribution := 10, expectedReturn := 0, inflation := 0,
    replacement := 8/10, lifeExpectancy := 66 }

/-- The value `calculate_retirement_needs` computes at `c4Plan` with income
100: corpus 80, accumulated 220, shortfall 0, on track. -/
def c4Result : RetirementInternals :=
  { yearsToRetirement := 1, yearsInRetirement := 1, futureRequiredIncome := 80,
    realReturn := 0, retirementCorpus := 80, futureValueCurrentSavings := 100,
    monthlyRate := 0, monthsToRetirement := 12, futureValueContributions := 120,
    totalAccumulated := 220, shortfall := 0, requiredAdditionalMonthly := 0,
    isOnTrack := true }

/-- C4 witness: the theorem instantiated at `c4Plan`, income 100. -/
theorem c4_witness :
    calcRetirementNeeds c4Plan 100 = some c4Result ∧
    (c4Result.shortfall =
      max 0 (c4Result.retirementCorpus - c4Result.totalAccumulated) ∧
    (c4Result.retirementCorpus ≤ c4Result.totalAccumulated →
      c4Result.shortfall = 0 ∧ c4Result.isOnTrack = true) ∧
    (0 < c4Result.shortfall → c4Result.isOnTrack = false)) := by
  have h : calcRetirementNeeds c4Plan 100 = some c4Result := by
    simp only [calcRetirementNeeds, c4Plan, c4Result, pydiv]
    norm_num
  exact ⟨h, c4_shortfall_max_and_on_track c4Plan 100 c4Result h⟩

/-- `InvestmentDatabase._calculate_ytd_return`
(`src/api/investment_database.py` lines 391-403).  A date enters the
computation only through its year, so a date is modelled by its year.
`year_start_idx` starts at 0 and is overwritten by the first index whose year
equals the current year; if no such index exists it silently stays 0. -/
def ytdReturn (currentYear : ℤ) (dateYears : List ℤ) (prices : List ℚ) : ℚ :=
  let yearStartIdx := (dateYears.findIdx? (· == currentYear)).getD 0
  if yearStartIdx < prices.length - 1 then
    (prices.getD (prices.length - 1) 0 - prices.getD yearStartIdx 0) /
      prices.getD yearStartIdx 0
  else 0

/-- Modelled from the spec (claim C6's words): YTD return =
`(last - price_at_first_date_of_current_year) / price_at_first_date_of_current_year`
when a current-year date exists, and 0 otherwise. -/
def specYtdReturn (currentYear : ℤ) (dateYears : List ℤ) (prices : List ℚ) : ℚ :=
  match dateYears.findIdx? (· == currentYear) with
  | some i =>
    (prices.getD (prices.length - 1) 0 - prices.getD i 0) / prices.getD i 0
  | none => 0

/-- C6 counterexample: a 2-point series dated entirely in 2025, read in 2026.
No date falls in the current year, so the claim demands a YTD return of 0, but
the unfound sentinel `year_start_idx = 0` (line 394) makes the code return the
return since the first point: `(110 - 100)/100 = 0.1`. -/
theorem c6_counterexample :
    ([2025, 2025] : List ℤ).findIdx? (· == (2026 : ℤ)) = none ∧
    specYtdReturn 2026 [2025, 2025] [100, 110] = 0 ∧
    ytdReturn 2026 [2025, 2025] [100, 110] = 1/10 := by
  refine ⟨rfl, rfl, ?_⟩
  simp only [ytdReturn, List.findIdx?, specYtdReturn]
  norm_num

/-- C6 amended: when the series contains a current-year date, the YTD return
equals `(last - price_at_first_current_year_date)/price_at_first_current_year_date`
(also when that date is the last point, where both sides are 0), matching the
manual-slicing recomputation exactly; but when no current-year date exists the
code falls back to index 0 and returns `(last - first)/first` for a series of
at least 2 points (0 only for shorter series). -/
theorem c6_ytd_characterization (cy : ℤ) (dateYears : List ℤ) (prices : List ℚ)
    (hlen : dateYears.length = prices.length) :
    (∀ i, dateYears.findIdx? (· == cy) = some i →
      ytdReturn cy dateYears prices = specYtdReturn cy dateYears prices) ∧
    (dateYears.findIdx? (· == cy) = none →
      ytdReturn cy dateYears prices =
        if 2 ≤ prices.length then
          (prices.getD (prices.length - 1) 0 - prices.getD 0 0) / prices.getD 0 0
        else 0) := by
  constructor
  · intro i hi
    obtain ⟨hilen, -⟩ := List.findIdx?_eq_some_iff_findIdx_eq.mp hi
    have hilt : i < prices.length := hlen ▸ hilen
    simp only [ytdReturn, specYtdReturn, hi, Option.getD_some]
    split_ifs with h
    · rfl
    · have hieq : i = prices.length - 1 := by omega
      rw [hieq, sub_self, zero_div]
  · intro hnone
    simp only [ytdReturn, hnone, Option.getD_none]
    split_ifs with h1 h2 <;> first | rfl | omega

/-- C6 witness: the characterization applied to a series whose second point is
the first current-year date. -/
theorem c6_witness :
    ytdReturn 2026 [2025, 2026, 2026] [100, 50, 60] =
      specYtdReturn 2026 [2025, 2026, 2026] [100, 50, 60] :=
  (c6_ytd_characterization 2026 [2025, 2026, 2026] [100, 50, 60] rfl).1 1 rfl

/-- Core loop of `InvestmentDatabase._generate_price_series`
(`src/api/investment_database.py` lines 307-345).  The transcendental
primitives of the source are abstracted as parameters so the embedding stays
in exact arithmetic:

* `cycleF i` stands for `np.sin(2 * np.pi * i / cycle_length)`;
* `stdF rets` stands for `np.std(rets)` over the recent 10-day returns;
* `sqrtDt` stands for `np.sqrt(1/252)`;
* `normal i` is the realized `np.random.normal()` draw of step `i`;
* `jumpDraw i` is `some jump_size` when the 0.5%-probability jump fires at
  step `i` (with `jump_size` drawn from `uniform(-0.1, 0.1)`), else `none`.

`acc` holds the prices generated so far in reverse order (most recent first),
so `prices[j]` of the source is `acc.getD (i - j) 0`. -/
def genAux (cycleF : ℕ → ℚ) (stdF : List ℚ → ℚ) (sqrtDt : ℚ)
    (normal : ℕ → ℚ) (jumpDraw : ℕ → Option ℚ)
    (annualReturn volatility : ℚ) : ℕ → ℕ → List ℚ → List ℚ
  | _, 0, acc => acc.reverse
  | i, steps+1, acc =>
    let dt : ℚ := 1/252
    let drift := annualReturn * dt
    let cycleFactor := cycleF i * (1/10) * dt
    let volAdjustment :=
      if 10 < i then
        let recentReturns := (List.range' (i - 10) 10).map (fun j =>
          acc.getD (i - j) 0 / acc.getD (i - j + 1) 0 - 1)
        1 + (stdF recentReturns - volatility) * (1/2)
      else 1
    let shock := volatility * volAdjustment * sqrtDt * normal i
    let lastPrice := acc.headD 0
    let priceChange := lastPrice * (drift + cycleFactor + shock)
    let newPrice := max (lastPrice + priceChange) (1/100)
    let jumped := match jumpDraw i with
      | some jumpSize => newPrice * (1 + jumpSize)
      | none => newPrice
    genAux cycleF stdF sqrtDt normal jumpDraw annualReturn volatility
      (i + 1) steps (jumped :: acc)

/-- `InvestmentDatabase._generate_price_series` (lines 307-345): starts from
`[initial_price]` and runs `num_days - 1` steps. -/
def genPriceSeries (cycleF : ℕ → ℚ) (stdF : List ℚ → ℚ) (sqrtDt : ℚ)
    (normal : ℕ → ℚ) (jumpDraw : ℕ → Option ℚ)
    (initialPrice annualReturn volatility : ℚ) (numDays : ℕ) : List ℚ :=
  genAux cycleF stdF sqrtDt normal jumpDraw annualReturn volatility
    0 (numDays - 1) [initialPrice]

/-- C7 counterexample: a 2-day series with `initial_price = 0.01` (≥ 0.01),
`annual_return = -300`, `volatility = 0` and a realized jump of `-0.1` on day
0.  The floor at line 336 produces 0.01, but the jump (lines 339-341) is
applied *after* the floor, yielding the close `0.01 × 0.9 = 0.009 < 0.01`.
The abstracted primitives are inert on this input: only `cycleF 0` is
evaluated (and `np.sin 0 = 0` matches the zero function), while `stdF`,
`sqrtDt` and `normal` are multiplied by `volatility = 0`. -/
theorem c7_counterexample :
    genPriceSeries (fun _ => 0) (fun _ => 0) (1/16) (fun _ => 0)
      (fun _ => some (-1/10)) (1/100) (-300) 0 2 = [1/100, 9/1000] ∧
    (9/1000 : ℚ) < 1/100 := by
  constructor
  · simp only [genPriceSeries, genAux, max_def]
    norm_num
  · norm_num

/-- Every price appended by the generator loop is at least
`0.01 × (1 - 0.1) = 0.009`: the floor gives `0.01` and the worst jump
multiplies by `0.9`. -/
theorem genAux_lower_bound (cycleF : ℕ → ℚ) (stdF : List ℚ → ℚ) (sqrtDt : ℚ)
    (normal : ℕ → ℚ) (jumpDraw : ℕ → Option ℚ) (annualReturn volatility : ℚ)
    (hjump : ∀ i j, jumpDraw i = some j → -(1/10) ≤ j ∧ j ≤ 1/10) :
    ∀ steps i acc, (∀ p ∈ acc, 9/1000 ≤ p) →
      ∀ p ∈ genAux cycleF stdF sqrtDt normal jumpDraw annualReturn volatility
        i steps acc, 9/1000 ≤ p := by
  intro steps
  induction steps with
  | zero =>
    intro i acc hacc p hp
    rw [genAux, List.mem_reverse] at hp
    exact hacc p hp
  | succ s ih =>
    intro i acc hacc p hp
    rw [genAux] at hp
    refine ih (i + 1) _ ?_ p hp
    intro q hq
    have key : ∀ x j : ℚ, -(1/10) ≤ j → (9/1000 : ℚ) ≤ max x (1/100) * (1 + j) := by
      intro x j hjb
      have h1 : (1/100 : ℚ) ≤ max x (1/100) := le_max_right _ _
      calc (9/1000 : ℚ) = (1/100) * (9/10) := by norm_num
      _ ≤ max x (1/100) * (1 + j) :=
          mul_le_mul h1 (by linarith) (by norm_num) (by linarith)
    rcases List.mem_cons.mp hq with hq | hq
    · subst hq
      rcases hj : jumpDraw i with - | j
      · simp only [hj]
        exact le_trans (by norm_num) (le_max_right _ _)
      · simp only [hj]
        exact key _ j (hjump i j hj).1
    · exact hacc q hq

/-- C7 amended: for every parameterisation of the generator and every
realization of the shocks and jumps (jump sizes in `[-0.1, 0.1]` as drawn by
`uniform(-0.1, 0.1)`), and any initial price ≥ 0.01, every close in the series
is at least `0.009` — in particular strictly positive — but not necessarily
at least `0.01`, because the 0.01 floor (line 336) is applied before the jump
multiplier (lines 339-341). -/
theorem c7_floor_bound (cycleF : ℕ → ℚ) (stdF : List ℚ → ℚ) (sqrtDt : ℚ)
    (normal : ℕ → ℚ) (jumpDraw : ℕ → Option ℚ)
    (initialPrice annualReturn volatility : ℚ) (numDays : ℕ)
    (hjump : ∀ i j, jumpDraw i = some j → -(1/10) ≤ j ∧ j ≤ 1/10)
    (hinit : 1/100 ≤ initialPrice) :
    ∀ p ∈ genPriceSeries cycleF stdF sqrtDt normal jumpDraw
      initialPrice annualReturn volatility numDays, 9/1000 ≤ p ∧ 0 < p := by
  intro p hp
  have h9 : (9/1000 : ℚ) ≤ p := by
    refine genAux_lower_bound cycleF stdF sqrtDt normal jumpDraw
      annualReturn volatility hjump (numDays - 1) 0 [initialPrice] ?_ p hp
    intro q hq
    rcases List.mem_cons.mp hq with hq | hq
    · subst hq; linarith
    · exact absurd hq (List.not_mem_nil q)
  exact ⟨h9, lt_of_lt_of_le (by norm_num) h9⟩

/-- C7 witness: the bound applied to the concrete 2-day series with a
realized `-0.1` jump; its first element `0.01` satisfies the bound. -/
theorem c7_floor_bound_witness :
    (9/1000 : ℚ) ≤ 1/100 ∧ (0 : ℚ) < 1/100 :=
  c7_floor_bound (fun _ => 0) (fun _ => 0) (1/16) (fun _ => 0)
    (fun _ => some (-1/10)) (1/100) (-300) 0 2
    (by intro i j hj; injection hj with hj; subst hj; constructor <;> norm_num)
    (by norm_num) (1/100)
    (by simp only [genPriceSeries, genAux, max_def]; norm_num)

/-- Daily simple returns `(prices[i] - prices[i-1]) / prices[i-1]` for
`i = 1 .. len-1` (`src/api/investment_database.py` line 366, without the
prepended 0). -/
def simpleReturns (prices : List ℚ) : List ℚ :=
  List.zipWith (fun prev cur => (cur - prev) / prev) prices prices.tail

/-- `np.mean` over a list of rationals. -/
def npMean (l : List ℚ) : ℚ := l.sum / l.length

/-- The square of `np.std` (population variance, `ddof = 0`). -/
def npVarPop (l : List ℚ) : ℚ := npMean (l.map (fun x => (x - npMean l) ^ 2))

/-- Loop of `InvestmentDatabase._calculate_max_drawdown` (lines 405-416). -/
def maxDrawdownAux : List ℚ → ℚ → ℚ → ℚ
  | [], _, maxDd => maxDd
  | p :: rest, peak, maxDd =>
    let peak' := if peak < p then p else peak
    let drawdown := (peak' - p) / peak'
    maxDrawdownAux rest peak' (max maxDd drawdown)

/-- `InvestmentDatabase._calculate_max_drawdown` (lines 405-416): peak starts
at the first price, the loop revisits every price including the first. -/
def maxDrawdown (prices : List ℚ) : ℚ :=
  maxDrawdownAux prices (prices.headD 0) 0

/-- One row of `performance_metrics` as computed by
`InvestmentDatabase._calculate_performance_metrics` (lines 347-389).  The code
stores `volatility = np.std(returns) * np.sqrt(252)` and
`sharpe_ratio = (np.mean(returns)*252 - 0.02)/volatility if volatility > 0
else 0`; to stay in exact arithmetic the embedding tracks
`volSq = volatility²`, `meanDaily = np.mean(returns)` (so the Sharpe
numerator is `meanDaily*252 - 0.02`), and `sharpeIsZero`, the `volatility > 0`
test (`volatility ≤ 0 ↔ volatility² ≤ 0` since `volatility ≥ 0`). -/
structure PerfMetrics where
  ytd : ℚ
  oneYear : Option ℚ
  threeYear : Option ℚ
  fiveYear : Option ℚ
  volSq : ℚ
  meanDaily : ℚ
  sharpeIsZero : Bool
  maxDd : ℚ
deriving DecidableEq

/-- Per-symbol body of `InvestmentDatabase._calculate_performance_metrics`
(lines 352-387): symbols with fewer than 252 price rows are skipped (`none`);
otherwise the metrics are computed from `returns = [0] + [simple returns]`
(line 366) — note the artificial leading 0. -/
def perfMetrics (currentYear : ℤ) (dateYears : List ℤ) (prices : List ℚ) :
    Option PerfMetrics :=
  if prices.length < 252 then none
  else
    let returns := 0 :: simpleReturns prices
    some {
      ytd := ytdReturn currentYear dateYears prices
      oneYear :=
        if 252 ≤ prices.length then
          some ((prices.getD (prices.length - 1) 0 - prices.getD (prices.length - 252) 0) /
            prices.getD (prices.length - 252) 0)
        else none
      threeYear :=
        if 756 ≤ prices.length then
          some ((prices.getD (prices.length - 1) 0 - prices.getD (prices.length - 756) 0) /
            prices.getD (prices.length - 756) 0)
        else none
      fiveYear :=
        if 1260 ≤ prices.length then
          some ((prices.getD (prices.length - 1) 0 - prices.getD (prices.length - 1260) 0) /
            prices.getD (prices.length - 1260) 0)
        else none
      volSq := npVarPop returns * 252
      meanDaily := npMean returns
      sharpeIsZero := decide (npVarPop returns * 252 ≤ 0)
      maxDd := maxDrawdown prices }

/-- Modelled from the spec (claim C8's words): the square of
`stdev(daily simple returns) × √252` — over the actual daily simple returns,
without the artificial leading 0. -/
def specVolSq (prices : List ℚ) : ℚ := npVarPop (simpleReturns prices) * 252

/-- Modelled from the spec (claim C8's words): the Sharpe numerator
`mean(daily simple returns) × 252 - 0.02` — again without the leading 0. -/
def specSharpeNumerator (prices : List ℚ) : ℚ :=
  npMean (simpleReturns prices) * 252 - 1/50

/-- Unfolding lemma: the first simple return of a two-step series. -/
theorem simpleReturns_cons_cons (x y : ℚ) (l : List ℚ) :
    simpleReturns (x :: y :: l) = (y - x) / x :: simpleReturns (y :: l) := rfl

/-- Simple returns of a flat series ending in one move: `n` zeros then
`(b - a)/a`. -/
theorem simpleReturns_replicate_append (n : ℕ) (a b : ℚ) :
    simpleReturns (List.replicate (n + 1) a ++ [b]) =
      List.replicate n 0 ++ [(b - a) / a] := by
  induction n with
  | zero => simp [simpleReturns]
  | succ m ih =>
    have h2 : List.replicate (m + 1) a ++ [b] = a :: (List.replicate m a ++ [b]) := by
      simp [List.replicate_succ]
    have h1 : List.replicate (m + 1 + 1) a ++ [b] =
        a :: a :: (List.replicate m a ++ [b]) := by
      simp [List.replicate_succ]
    rw [h1, simpleReturns_cons_cons, ← h2, ih, sub_self, zero_div,
      List.replicate_succ, List.cons_append]

/-- Mean of `n` zeros followed by `x`. -/
theorem npMean_replicate_zero_append (n : ℕ) (x : ℚ) :
    npMean (List.replicate n 0 ++ [x]) = x / (n + 1) := by
  simp [npMean, List.sum_replicate]

/-- Population variance of `n` zeros followed by `x`. -/
theorem npVarPop_replicate_zero_append (n : ℕ) (x : ℚ) :
    npVarPop (List.replicate n 0 ++ [x]) = x ^ 2 * n / (n + 1) ^ 2 := by
  have hm := npMean_replicate_zero_append n x
  have hne : ((n : ℚ) + 1) ≠ 0 := by positivity
  simp only [npVarPop, List.map_append, List.map_replicate, List.map_cons,
    List.map_nil, hm]
  simp [npMean, List.sum_replicate, smul_eq_mul]
  field_simp
  ring

/-- The population variance is nonnegative. -/
theorem npVarPop_nonneg (l : List ℚ) : 0 ≤ npVarPop l := by
  unfold npVarPop npMean
  apply div_nonneg
  · apply List.sum_nonneg
    intro x hx
    obtain ⟨y, -, rfl⟩ := List.mem_map.mp hx
    positivity
  · exact Nat.cast_nonneg _

/-- 252 prices: 251 flat days at 100, then a close at 110. -/
def c8Prices : List ℚ := List.replicate 251 100 ++ [110]

/-- Dates (years) for `c8Prices`, all in the current year 2026. -/
def c8Dates : List ℤ := List.replicate 252 2026

/-- C8 counterexample: on `c8Prices` the stored volatility and Sharpe ratio
differ from the claim's formulas over the daily simple returns, because line
366 prepends an artificial 0 to the returns before `np.std`/`np.mean`: the
variance is taken over 252 values (251 zeros and 0.1) instead of the 251
actual returns, and likewise the mean.  Volatilities are compared via their
squares (both nonnegative, so the squares differ iff the values differ). -/
theorem c8_counterexample :
    (perfMetrics 2026 c8Dates c8Prices).map (fun pm => pm.volSq) ≠
      some (specVolSq c8Prices) ∧
    (perfMetrics 2026 c8Dates c8Prices).map (fun pm => pm.meanDaily * 252 - 1/50) ≠
      some (specSharpeNumerator c8Prices) := by
  have hsr : simpleReturns c8Prices = List.replicate 250 0 ++ [1/10] := by
    rw [show c8Prices = List.replicate (250 + 1) 100 ++ [110] from rfl,
      simpleReturns_replicate_append]
    norm_num
  have h0 : (0 : ℚ) :: simpleReturns c8Prices = List.replicate 251 0 ++ [1/10] := by
    rw [hsr]; rfl
  have hlen : ¬ (c8Prices.length < 252) := by
    rw [c8Prices, List.length_append, List.length_replicate]
    norm_num
  rw [perfMetrics, if_neg hlen]
  simp only [Option.map_some']
  constructor
  · rw [h0, npVarPop_replicate_zero_append, specVolSq, hsr,
      npVarPop_replicate_zero_append]
    simp only [ne_eq, Option.some_inj]
    norm_num
  · rw [h0, npMean_replicate_zero_append, specSharpeNumerator, hsr,
      npMean_replicate_zero_append]
    simp only [ne_eq, Option.some_inj]
    norm_num

/-- C8 amended: for every price series with stored metrics (≥ 252 points),
the stored volatility squared equals the population variance of the
**0-prepended** daily-return series times 252, the Sharpe numerator uses the
mean of that same 0-prepended series, the stored variance is nonnegative, and
the Sharpe ratio is zeroed exactly when that variance is zero. -/
theorem c8_metrics_use_zero_prepended_returns (cy : ℤ) (dateYears : List ℤ)
    (prices : List ℚ) (pm : PerfMetrics)
    (h : perfMetrics cy dateYears prices = some pm) :
    pm.volSq = npVarPop (0 :: simpleReturns prices) * 252 ∧
    pm.meanDaily = npMean (0 :: simpleReturns prices) ∧
    0 ≤ pm.volSq ∧
    (pm.sharpeIsZero = true ↔ pm.volSq = 0) ∧
    252 ≤ prices.length := by
  rw [perfMetrics] at h
  split at h
  · exact Option.noConfusion h
  · rw [Option.some_inj] at h
    subst h
    have hvar : 0 ≤ npVarPop (0 :: simpleReturns prices) := npVarPop_nonneg _
    have hvol : 0 ≤ npVarPop (0 :: simpleReturns prices) * 252 := by positivity
    refine ⟨rfl, rfl, hvol, ?_, by omega⟩
    simp only [decide_eq_true_eq]
    constructor
    · intro hle; exact le_antisymm hle hvol
    · intro heq; exact le_of_eq heq

/-- A flat 252-day series at price 100, dated in the current year. -/
def c8FlatPrices : List ℚ := List.replicate 252 100

/-- Dates (years) for `c8FlatPrices`. -/
def c8FlatDates : List ℤ := List.replicate 252 2026

/-- The metrics row computed on the flat series. -/
def c8WitnessPM : PerfMetrics :=
  (perfMetrics 2026 c8FlatDates c8FlatPrices).getD ⟨0, none, none, none, 0, 0, false, 0⟩

/-- C8 witness: the amended characterization applied to the flat 252-day
series. -/
theorem c8_witness :
    perfMetrics 2026 c8FlatDates c8FlatPrices = some c8WitnessPM ∧
    (c8WitnessPM.volSq = npVarPop (0 :: simpleReturns c8FlatPrices) * 252 ∧
     c8WitnessPM.meanDaily = npMean (0 :: simpleReturns c8FlatPrices) ∧
     0 ≤ c8WitnessPM.volSq ∧
     (c8WitnessPM.sharpeIsZero = true ↔ c8WitnessPM.volSq = 0) ∧
     252 ≤ c8FlatPrices.length) := by
  have hlen : ¬ (c8FlatPrices.length < 252) := by
    rw [c8FlatPrices, List.length_replicate]
    norm_num
  have h : perfMetrics 2026 c8FlatDates c8FlatPrices = some c8WitnessPM := by
    rw [c8WitnessPM, perfMetrics, if_neg hlen, Option.getD_some]
  exact ⟨h, c8_metrics_use_zero_prepended_returns 2026 c8FlatDates c8FlatPrices
    c8WitnessPM h⟩

/-- The per-symbol returns column built at line 88 of
`src/portfolio_optimizer.py`: `data['returns'] = data['close_price']
.pct_change().dropna()`.  Assigning the dropna'd series back into the frame
realigns it on the index, so the stored column has the same length as the
price column with a null (NaN) first entry. -/
def pctChangeCol (prices : List ℚ) : List (Option ℚ) :=
  none :: (simpleReturns prices).map some

/-- `np.mean` over a column that may contain NaN (`none`): NaN-propagating,
and NaN (`none`) on an empty column. -/
def omean (l : List (Option ℚ)) : Option ℚ :=
  if l.isEmpty then none
  else if l.any (·.isNone) then none
  else some (l.reduceOption.sum / l.length)

/-- One entry of `np.cov` (sample covariance, `ddof = 1`), NaN-propagating;
NaN when there are ≤ 1 observations. -/
def ocov (r1 r2 : List (Option ℚ)) : Option ℚ :=
  if r1.length ≤ 1 then none
  else if r1.any (·.isNone) ∨ r2.any (·.isNone) then none
  else
    let xs := r1.reduceOption
    let ys := r2.reduceOption
    let mx := xs.sum / xs.length
    let my := ys.sum / ys.length
    some (((xs.zip ys).map (fun p => (p.1 - mx) * (p.2 - my))).sum /
      ((xs.length : ℚ) - 1))

/-- Lines 73-89 of `PortfolioOptimizer.calculate_returns_covariance`: symbols
whose in-window price series has fewer than 30 rows are skipped (`continue`),
the rest contribute their stored returns column.  The SQL date window is
abstracted: the input is the list of per-symbol in-window close series, in
symbol order. -/
def qualifyingReturns (series : List (List ℚ)) : List (List (Option ℚ)) :=
  (series.filter (fun ps => !(decide (ps.length < 30)))).map pctChangeCol

/-- `min(len(r) for r in returns_data)` (line 95). -/
def minLen (rs : List (List (Option ℚ))) : ℕ :=
  match rs with
  | [] => 0
  | r :: rest => (rest.map (·.length)).foldr min r.length

/-- Line 96: every surviving series truncated to its last `min_length`
entries (`r[-min_length:]`), giving the rows of the (transposed) returns
matrix. -/
def alignedMatrix (series : List (List ℚ)) : List (List (Option ℚ)) :=
  (qualifyingReturns series).map
    (fun r => r.drop (r.length - minLen (qualifyingReturns series)))

/-- `PortfolioOptimizer.calculate_returns_covariance` (lines 65-104):
`none` models the `ValueError("Insufficient data for optimization")` raised
when fewer than 2 symbols survive the 30-row filter; otherwise the annualized
expected-return vector (`np.mean(matrix, axis=0) * 252`, one entry per
surviving symbol) and the annualized covariance matrix
(`np.cov(matrix.T) * 252`). -/
def calcReturnsCovariance (series : List (List ℚ)) :
    Option (List (Option ℚ) × List (List (Option ℚ))) :=
  if (qualifyingReturns series).length < 2 then none
  else
    some ((alignedMatrix series).map (fun r => (omean r).map (· * 252)),
      (alignedMatrix series).map (fun ri =>
        (alignedMatrix series).map (fun rj => (ocov ri rj).map (· * 252))))

/-- Folding `min` never exceeds the initial accumulator. -/
theorem foldr_min_le_init (l : List ℕ) (a : ℕ) : l.foldr min a ≤ a := by
  induction l with
  | nil => exact le_refl a
  | cons x xs ih => exact le_trans (min_le_right x (xs.foldr min a)) ih

/-- Folding `min` is below every member. -/
theorem foldr_min_le_mem (l : List ℕ) (a : ℕ) : ∀ x ∈ l, l.foldr min a ≤ x := by
  induction l with
  | nil => intro x hx; exact absurd hx (List.not_mem_nil x)
  | cons y ys ih =>
    intro x hx
    rcases List.mem_cons.mp hx with hx | hx
    · subst hx; exact min_le_left x (ys.foldr min a)
    · exact le_trans (min_le_right y (ys.foldr min a)) (ih x hx)

/-- `minLen` is a lower bound on every row length. -/
theorem minLen_le (rs : List (List (Option ℚ))) (r : List (Option ℚ))
    (hr : r ∈ rs) : minLen rs ≤ r.length := by
  match rs with
  | [] => exact absurd hr (List.not_mem_nil r)
  | s :: rest =>
    rcases List.mem_cons.mp hr with h | h
    · subst h; exact foldr_min_le_init _ _
    · exact foldr_min_le_mem _ _ r.length (List.mem_map_of_mem (·.length) h)

/-- Pointwise match between the source's skip test (`len(data) < 30` price
rows) and the claim's qualifying test (≥ 30 entries in the stored daily
return series): the stored column has exactly one entry per price row. -/
theorem bool_not_lt (a b : ℕ) : (!(decide (a < b))) = decide (b ≤ a) := by
  rcases Nat.lt_or_ge a b with h | h
  · rw [decide_eq_true h, decide_eq_false (Nat.not_le.mpr h)]; rfl
  · rw [decide_eq_false (Nat.not_lt.mpr h), decide_eq_true h]; rfl

/-- The stored returns column has one entry per price row. -/
theorem pctChangeCol_length (x : ℚ) (rest : List ℚ) :
    (pctChangeCol (x :: rest)).length = (x :: rest).length := by
  simp [pctChangeCol, simpleReturns, List.length_zipWith]

/-- Pointwise match between the source's skip test (`len(data) < 30` price
rows) and the claim's qualifying test (≥ 30 entries in the stored daily
return series): the stored column has exactly one entry per price row. -/
theorem qualifying_pred_agrees (ps : List ℚ) :
    (!(decide (ps.length < 30))) = decide (30 ≤ (pctChangeCol ps).length) := by
  match ps with
  | [] => rfl
  | x :: rest =>
    rw [pctChangeCol_length]
    exact bool_not_lt _ _

/-- C5: `calculate_returns_covariance` raises `InsufficientDataError` exactly
when fewer than 2 symbols have at least 30 entries in their stored daily
return series over the lookback window (the stored column has one entry per
price row, its first being the null realignment artifact); a below-threshold
symbol is skipped without itself causing an error; the surviving series are
truncated to the shortest common length, so every row of the aligned matrix —
from which the `mean×252` vector and `cov×252` matrix are taken — has equal
length. -/
theorem c5_error_skip_alignment (series : List (List ℚ)) (s : List ℚ) :
    (calcReturnsCovariance series = none ↔
      series.countP (fun ps => decide (30 ≤ (pctChangeCol ps).length)) < 2) ∧
    (s.length < 30 →
      (calcReturnsCovariance (s :: series) = none ↔
        calcReturnsCovariance series = none)) ∧
    (∀ r ∈ alignedMatrix series, r.length = minLen (qualifyingReturns series)) ∧
    (∀ out, calcReturnsCovariance series = some out →
      out.1 = (alignedMatrix series).map (fun r => (omean r).map (· * 252))) := by
  have hcount : (qualifyingReturns series).length =
      series.countP (fun ps => decide (30 ≤ (pctChangeCol ps).length)) := by
    rw [qualifyingReturns, List.length_map, ← List.countP_eq_length_filter]
    induction series with
    | nil => rfl
    | cons a as ih =>
      rw [List.countP_cons, List.countP_cons, qualifying_pred_agrees, ih]
  refine ⟨?_, ?_, ?_, ?_⟩
  · rw [calcReturnsCovariance]
    constructor
    · intro h
      by_cases hc : (qualifyingReturns series).length < 2
      · rw [← hcount]; exact hc
      · rw [if_neg hc] at h; exact Option.noConfusion h
    · intro h
      rw [if_pos (hcount ▸ h)]
  · intro hs
    have hpred : (!(decide (s.length < 30))) = false := by
      rw [decide_eq_true hs]; rfl
    have hfil : qualifyingReturns (s :: series) = qualifyingReturns series := by
      rw [qualifyingReturns, qualifyingReturns, List.filter_cons, hpred]
      simp
    have halign : alignedMatrix (s :: series) = alignedMatrix series := by
      rw [alignedMatrix, alignedMatrix, hfil]
    rw [calcReturnsCovariance, calcReturnsCovariance, hfil, halign]
  · intro r hr
    rw [alignedMatrix] at hr
    obtain ⟨q, hq, rfl⟩ := List.mem_map.mp hr
    rw [List.length_drop]
    have := minLen_le (qualifyingReturns series) q hq
    omega
  · intro out hout
    rw [calcReturnsCovariance] at hout
    split at hout
    · exact Option.noConfusion hout
    · rw [Option.some_inj] at hout
      rw [← hout]

/-- C5 witness: prepending a 1-row symbol (below the 30-row threshold) to a
qualifying 2-symbol universe leaves the error behavior unchanged. -/
theorem c5_witness :
    ([ (5 : ℚ) ] : List ℚ).length < 30 ∧
    (calcReturnsCovariance ([(5 : ℚ)] ::
        [List.replicate 30 (1 : ℚ), List.replicate 31 2]) = none ↔
      calcReturnsCovariance [List.replicate 30 (1 : ℚ), List.replicate 31 2] = none) :=
  ⟨by norm_num,
    (c5_error_skip_alignment [List.replicate 30 (1 : ℚ), List.replicate 31 2]
      [(5 : ℚ)]).2.1 (by norm_num)⟩

/-- Python's `'needle' in s` substring test. -/
def strHasSub (needle s : String) : Bool :=
  s.toList.tails.any (fun t => needle.toList.isPrefixOf t)

/-- The UAE base-return table (`src/api/investment_database.py` lines
242-248). -/
def uaeReturns : List (String × ℚ) :=
  [("Banking", 8/100), ("Real Estate", 6/100), ("Government Bond", 35/1000),
   ("Islamic Bond", 4/100), ("ETF", 7/100), ("Mutual Fund", 8/100),
   ("Islamic Fund", 75/1000), ("Commodity", 5/100),
   ("Telecommunications", 6/100), ("Utilities", 55/1000), ("Energy", 7/100),
   ("Transportation", 65/1000), ("Infrastructure", 6/100),
   ("Financial Services", 75/1000), ("Healthcare", 7/100),
   ("Education", 65/1000), ("Bond ETF", 4/100)]

/-- The US base-return table (lines 249-253). -/
def usReturns : List (String × ℚ) :=
  [("ETF", 10/100), ("Technology Stock", 15/100), ("Consumer Stock", 12/100),
   ("Automotive Stock", 18/100), ("Bond ETF", 35/1000), ("Mutual Fund", 9/100),
   ("REIT ETF", 8/100), ("Commodity ETF", 6/100), ("Stock", 12/100)]

/-- `InvestmentDatabase._get_expected_return` (lines 239-277): table lookup
with default 0.08, broader-category fallbacks, `(risk_level - 5) * 0.015`
adjustment, ×0.9 UAE dampening, floored at 0.01. -/
def getExpectedReturn (riskLevel : ℤ) (category market : String) : ℚ :=
  let marketReturns :=
    if market = "UAE" then uaeReturns
    else if market = "US" then usReturns
    else []
  let baseReturn0 := (marketReturns.lookup category).getD (8/100)
  let baseReturn :=
    if baseReturn0 = 8/100 ∧ marketReturns.lookup category = none then
      if strHasSub "Stock" category then (marketReturns.lookup "Stock").getD (12/100)
      else if strHasSub "Bond" category then
        (marketReturns.lookup "Bond ETF").getD (35/1000)
      else if strHasSub "ETF" category then (marketReturns.lookup "ETF").getD (10/100)
      else baseReturn0
    else baseReturn0
  let riskAdjustment := ((riskLevel : ℚ) - 5) * (15/1000)
  let dampened := if market = "UAE" then baseReturn * (9/10) else baseReturn
  max (1/100) (dampened + riskAdjustment)

/-- Category volatility multipliers (lines 283-291). -/
def volMultipliers : List (String × ℚ) :=
  [("Government Bond", 25/100), ("Islamic Bond", 3/10), ("Bond ETF", 35/100),
   ("Banking", 7/10), ("ETF", 9/10), ("Mutual Fund", 85/100),
   ("Islamic Fund", 8/10), ("Stock", 11/10), ("Technology Stock", 14/10),
   ("Consumer Stock", 12/10), ("Automotive Stock", 16/10), ("Real Estate", 1),
   ("Commodity", 13/10), ("Commodity ETF", 12/10),
   ("Telecommunications", 8/10), ("Utilities", 6/10), ("Energy", 11/10),
   ("Transportation", 12/10), ("Infrastructure", 9/10),
   ("Financial Services", 1), ("Healthcare", 9/10), ("Education", 8/10),
   ("REIT ETF", 1)]

/-- `InvestmentDatabase._get_volatility` (lines 279-305): base volatility
`0.08 + (risk_level - 1) * 0.025`, category multiplier with broader-category
fallbacks, floored at 0.05. -/
def getVolatility (riskLevel : ℤ) (category : String) : ℚ :=
  let baseVol := 8/100 + ((riskLevel : ℚ) - 1) * (25/1000)
  let multiplier0 := (volMultipliers.lookup category).getD 1
  let multiplier :=
    if multiplier0 = 1 ∧ volMultipliers.lookup category = none then
      if strHasSub "Stock" category then 11/10
      else if strHasSub "Bond" category then 35/100
      else if strHasSub "ETF" category then 9/10
      else multiplier0
    else multiplier0
  max (1/20) (baseVol * multiplier)

/-- C10: for every instrument (risk level 1-10, any category and market) the
market-data generator's parameter lookups return an expected annual return of
at least 0.01 and an annualized volatility of at least 0.05 — the explicit
`max` floors at lines 277 and 305 guarantee the drift is never zero or
negative and the volatility never degenerate. -/
theorem c10_parameter_floors (riskLevel : ℤ) (category market : String)
    (h1 : 1 ≤ riskLevel) (h2 : riskLevel ≤ 10) :
    1/100 ≤ getExpectedReturn riskLevel category market ∧
    1/20 ≤ getVolatility riskLevel category := by
  constructor
  · simp only [getExpectedReturn]
    exact le_max_left _ _
  · simp only [getVolatility]
    exact le_max_left _ _

/-- C10 witness: the floors at a mid-risk US ETF. -/
theorem c10_witness :
    1/100 ≤ getExpectedReturn 5 "ETF" "US" ∧ 1/20 ≤ getVolatility 5 "ETF" :=
  c10_parameter_floors 5 "ETF" "US" (by norm_num) (by norm_num)

/-- `InvestorProfile` fields used by the optimizer's target-return helper
(`src/portfolio_optimizer.py` lines 26-37). -/
structure Profile where
  age : ℤ
  riskTolerance : ℤ
deriving DecidableEq

/-- `PortfolioOptimizer._calculate_target_return` (lines 203-219): an
age/risk-tolerance blend of assumed equity (10%) and bond (4%) returns,
bounded to `[0.03, 0.15]`. -/
def calcTargetReturn (p : Profile) : ℚ :=
  let equityAllocation := max (3/10) (min (9/10) (((120 : ℚ) - p.age) / 100))
  let riskAdjustment := ((p.riskTolerance : ℚ) - 5) * (1/100)
  let equityReturn : ℚ := 1/10
  let bondReturn : ℚ := 4/100
  let targetReturn := equityAllocation * equityReturn +
    (1 - equityAllocation) * bondReturn + riskAdjustment
  max (3/100) (min (15/100) targetReturn)

/-- `np.linspace(a, b, n)` (for `n ≥ 2`; `n = 1` gives `[a]`, matching the
junk-free evaluation of the formula at `i = 0`). -/
def linspace (a b : ℚ) (n : ℕ) : List ℚ :=
  (List.range n).map (fun i : ℕ => a + (b - a) * (i : ℚ) / ((n : ℚ) - 1))

/-- `np.min` over a nonempty list of rationals (0 on empty input, which the
source never reaches). -/
def listMinQ : List ℚ → ℚ
  | [] => 0
  | x :: xs => xs.foldl min x

/-- `np.max` over a nonempty list of rationals. -/
def listMaxQ : List ℚ → ℚ
  | [] => 0
  | x :: xs => xs.foldl max x

/-- Lines 229-232 of `PortfolioOptimizer.generate_efficient_frontier`: the
sweep of target returns between the minimum and maximum per-asset expected
returns. -/
def frontierTargets (expectedReturns : List ℚ) (numPortfolios : ℕ) : List ℚ :=
  linspace (listMinQ expectedReturns) (listMaxQ expectedReturns) numPortfolios

/-- The target actually used by the optimization run for a sweep point.  In
the loop body (lines 236-251) the call is
`self.optimize_portfolio(investor_profile, temp_constraints, 'target_return')`
— `target_ret` is never passed — and `optimize_portfolio`'s `target_return`
branch (lines 163-170) sets the equality constraint to
`self._calculate_target_return(investor_profile)`.  So the constraint target
is a function of the profile alone, independent of the swept `target_ret`. -/
def frontierConstraintTarget (p : Profile) (targetRet : ℚ) : ℚ :=
  calcTargetReturn p

/-- Element `i` of the sweep. -/
theorem linspace_getD (a b : ℚ) (n i : ℕ) (h : i < n) :
    (linspace a b n).getD i 0 = a + (b - a) * i / ((n : ℚ) - 1) := by
  rw [linspace]
  have hlen : i < ((List.range n).map
      (fun i : ℕ => a + (b - a) * (i : ℚ) / ((n : ℚ) - 1))).length := by
    simpa using h
  rw [List.getD_eq_getElem _ _ hlen]
  simp

/-- C2: on the two-asset universe with expected returns `[0.04, 0.12]` and the
demo profile (age 35, risk tolerance 7), the first swept target is `0.04`, but
the optimization run for that sweep point is constrained to the profile-derived
target `0.111` — `target_ret` is computed and recorded but never passed to
`optimize_portfolio`, so every frontier point solves the same problem.  This
refutes the claim that each frontier point's optimization is constrained to
its swept target. -/
theorem c2_swept_target_ignored :
    (frontierTargets [1/25, 3/25] 50).getD 0 0 = 1/25 ∧
    frontierConstraintTarget ⟨35, 7⟩ ((frontierTargets [1/25, 3/25] 50).getD 0 0) =
      111/1000 ∧
    (1/25 : ℚ) ≠ 111/1000 := by
  have h0 : (frontierTargets [1/25, 3/25] 50).getD 0 0 = 1/25 := by
    rw [frontierTargets, listMinQ, listMaxQ]
    rw [linspace_getD _ _ 50 0 (by norm_num)]
    norm_num [min_def, max_def]
  refine ⟨h0, ?_, by norm_num⟩
  rw [h0, frontierConstraintTarget, calcTargetReturn]
  norm_num [min_def, max_def]

/-- The reader-visible contents of the database: per-symbol historical series
and per-symbol performance metrics (`src/api/investment_database.py` schema,
lines 53-81). -/
structure Store where
  hist : List (String × List ℚ)
  metrics : List (String × PerfMetrics)

/-- Commit-granularity trace of `InvestmentDatabase.refresh_database`
(lines 486-501).  A concurrent reader (a separate connection) observes
exactly the committed states:

1. the pre-refresh store;
2. after `DELETE FROM historical_data; DELETE FROM performance_metrics;
   commit()` (lines 491-493): both tables empty;
3. after `generate_historical_data` inserts every new price row and commits
   (line 221): new history, still no metrics;
4. after `_calculate_performance_metrics` inserts the metrics rows and
   commits (line 389): the final store. -/
def refreshTrace (old : Store) (newHist : List (String × List ℚ))
    (newMetrics : List (String × PerfMetrics)) : List Store :=
  [old, ⟨[], []⟩, ⟨newHist, []⟩, ⟨newHist, newMetrics⟩]

/-- Modelled from the spec (claim C9's words): every state a reader can
observe during the refresh shows, for each symbol of interest, either the
complete old series or the complete new series. -/
def readerSeesOldOrNew (syms : List String) (old : Store)
    (newHist : List (String × List ℚ)) (trace : List Store) : Prop :=
  ∀ s ∈ trace, ∀ sym ∈ syms,
    s.hist.lookup sym = old.hist.lookup sym ∨
    s.hist.lookup sym = newHist.lookup sym

/-- A store holding one symbol with a 2-point series. -/
def c9Old : Store := ⟨[("FAB", [100, 101])], []⟩

/-- The regenerated history for that symbol. -/
def c9NewHist : List (String × List ℚ) := [("FAB", [50, 51])]

/-- The regenerated metrics row. -/
def c9NewMetrics : List (String × PerfMetrics) :=
  [("FAB", ⟨0, none, none, none, 0, 0, false, 0⟩)]

/-- C9 counterexample: the refresh first clears both tables and commits
(lines 491-493), so the second committed state of the trace shows no series at
all for a symbol that had one — a reader there sees neither the old nor the
new series.  There is no staging area and no atomic swap. -/
theorem c9_counterexample :
    ¬ readerSeesOldOrNew ["FAB"] c9Old c9NewHist
      (refreshTrace c9Old c9NewHist c9NewMetrics) := by
  intro h
  have h2 := h ⟨[], []⟩
    (by rw [refreshTrace]; exact List.mem_cons_of_mem _ (List.mem_cons_self _ _))
    "FAB" (List.mem_cons_self _ _)
  rcases h2 with h2 | h2 <;> exact Option.noConfusion h2

/-- C9 amended: at commit granularity a reader never sees a *partial* series —
each observable state shows, per symbol, the complete old series, no series at
all, or the complete new series — but the cleared store (no series, no
metrics) is itself an observable committed state, so the claimed atomic
staging-and-swap does not hold. -/
theorem c9_refresh_commit_states (old : Store)
    (newHist : List (String × List ℚ)) (newMetrics : List (String × PerfMetrics)) :
    (∀ s ∈ refreshTrace old newHist newMetrics, ∀ sym : String,
      s.hist.lookup sym = old.hist.lookup sym ∨
      s.hist.lookup sym = none ∨
      s.hist.lookup sym = newHist.lookup sym) ∧
    (⟨[], []⟩ : Store) ∈ refreshTrace old newHist newMetrics := by
  constructor
  · intro s hs sym
    rw [refreshTrace] at hs
    rcases List.mem_cons.mp hs with h | hs
    · subst h; exact Or.inl rfl
    rcases List.mem_cons.mp hs with h | hs
    · subst h; exact Or.inr (Or.inl rfl)
    rcases List.mem_cons.mp hs with h | hs
    · subst h; exact Or.inr (Or.inr rfl)
    rcases List.mem_cons.mp hs with h | hs
    · subst h; exact Or.inr (Or.inr rfl)
    · exact absurd hs (List.not_mem_nil s)
  · rw [refreshTrace]
    exact List.mem_cons_of_mem _ (List.mem_cons_self _ _)

/-- C9 witness: the amended characterization applied to the concrete refresh,
read at the cleared intermediate state. -/
theorem c9_witness :
    (⟨[], []⟩ : Store).hist.lookup "FAB" = c9Old.hist.lookup "FAB" ∨
    (⟨[], []⟩ : Store).hist.lookup "FAB" = none ∨
    (⟨[], []⟩ : Store).hist.lookup "FAB" = c9NewHist.lookup "FAB" :=
  (c9_refresh_commit_states c9Old c9NewHist c9NewMetrics).1 ⟨[], []⟩
    (by rw [refreshTrace]; exact List.mem_cons_of_mem _ (List.mem_cons_self _ _))
    "FAB"

/-- `OptimizationConstraints` dataclass (`src/portfolio_optimizer.py` lines
15-24), restricted to the fields the optimizer's weight handling uses. -/
structure OptConstraints where
  minWeight : ℚ := 0
  maxWeight : ℚ := 1
  maxSingleAsset : ℚ := 3/10
  minDiversification : ℕ := 5
deriving DecidableEq

/-- The per-asset weight bounds passed to the solver (lines 148-151):
`(min_weight, min(max_weight, max_single_asset))`. -/
def boundLo (c : OptConstraints) : ℚ := c.minWeight

/-- Upper bound of the solver box (lines 148-151). -/
def boundHi (c : OptConstraints) : ℚ := min c.maxWeight c.maxSingleAsset

/-- Modelled from the spec: the success contract of the external bounded SLSQP
solver (`scipy.optimize.minimize(..., method='SLSQP', bounds=..,
constraints=[Σw = 1])`, lines 156-173; scipy is outside this repository).
When `result.success` holds, the returned point respects the box bounds and
satisfies the equality constraint `Σw = 1` within the solver accuracy
`acc = 1e-6`; `optimize_portfolio` raises on `not result.success`, so any
returned weight vector satisfies this contract. -/
def slsqpSuccess (c : OptConstraints) (n : ℕ) (w : List ℚ) : Prop :=
  w.length = n ∧
  (∀ x ∈ w, boundLo c ≤ x ∧ x ≤ boundHi c) ∧
  |w.sum - 1| ≤ 1/1000000

/-- Python's `round(x, 4)` (line 188): round half to even at 4 decimals. -/
def pyRound4 (x : ℚ) : ℚ :=
  let y := x * 10000
  let f : ℤ := ⌊y⌋
  let r := y - f
  (if r < 1/2 then (f : ℚ)
   else if 1/2 < r then (f : ℚ) + 1
   else if f % 2 = 0 then (f : ℚ) else (f : ℚ) + 1) / 10000

/-- Rounding to 4 decimals moves a value by at most `5e-5`. -/
theorem pyRound4_close (x : ℚ) : |pyRound4 x - x| ≤ 1/20000 := by
  rw [pyRound4]
  set y := x * 10000 with hy
  set f : ℤ := ⌊y⌋ with hf
  have h0 : (f : ℚ) ≤ y := Int.floor_le y
  have h1 : y < f + 1 := Int.lt_floor_add_one y
  have hx : x = y / 10000 := by rw [hy]; ring
  have key : ∀ k : ℚ, |k - y| ≤ 1/2 → |k / 10000 - x| ≤ 1/20000 := by
    intro k hk
    rw [hx, div_sub_div_same, abs_div, abs_of_pos (by norm_num : (0:ℚ) < 10000)]
    rw [div_le_iff (by norm_num : (0:ℚ) < 10000)]
    linarith
  split_ifs with hr1 hr2 hr3
  · exact key _ (by rw [abs_sub_comm, abs_of_nonneg (by linarith)]; linarith)
  · exact key _ (by rw [abs_of_nonneg (by linarith)]; linarith)
  · exact key _ (by rw [abs_sub_comm, abs_of_nonneg (by linarith)]; linarith)
  · exact key _ (by rw [abs_of_nonneg (by linarith)]; linarith)

/-- The reported allocation (lines 184-190): weights above `0.001` only,
rounded to 4 decimals. -/
def allocationWeights (w : List ℚ) : List ℚ :=
  (w.filter (fun x => decide ((1:ℚ)/1000 < x))).map pyRound4

/-- Dropping sub-`0.001` weights and rounding the kept ones moves the sum by
at most `(0.001 + 5e-5)` per asset, provided the weights are nonnegative. -/
theorem allocationWeights_sum_close (w : List ℚ) (h0 : ∀ x ∈ w, 0 ≤ x) :
    |(allocationWeights w).sum - w.sum| ≤ w.length * (1/1000 + 1/20000) := by
  induction w with
  | nil => simp [allocationWeights]
  | cons a l ih =>
    have ha : 0 ≤ a := h0 a (List.mem_cons_self a l)
    have hl : ∀ x ∈ l, 0 ≤ x := fun x hx => h0 x (List.mem_cons_of_mem a hx)
    have ihl := ih hl
    have hlen : (0:ℚ) ≤ l.length := by positivity
    by_cases hcut : (1:ℚ)/1000 < a
    · have hstep : allocationWeights (a :: l) = pyRound4 a :: allocationWeights l := by
        rw [allocationWeights, allocationWeights, List.filter_cons,
          decide_eq_true hcut]
        simp
      rw [hstep, List.sum_cons, List.sum_cons, List.length_cons]
      have hra := pyRound4_close a
      calc |pyRound4 a + (allocationWeights l).sum - (a + l.sum)|
          = |(pyRound4 a - a) + ((allocationWeights l).sum - l.sum)| := by ring_nf
        _ ≤ |pyRound4 a - a| + |(allocationWeights l).sum - l.sum| := abs_add _ _
        _ ≤ 1/20000 + l.length * (1/1000 + 1/20000) := by linarith
        _ ≤ (l.length + 1) * (1/1000 + 1/20000) := by push_cast; linarith
        _ = ((l.length + 1 : ℕ) : ℚ) * (1/1000 + 1/20000) := by push_cast; ring
    · have hstep : allocationWeights (a :: l) = allocationWeights l := by
        rw [allocationWeights, allocationWeights, List.filter_cons,
          decide_eq_false hcut]
        simp
      rw [hstep, List.sum_cons, List.length_cons]
      have hle : a ≤ 1/1000 := le_of_not_lt hcut
      calc |(allocationWeights l).sum - (a + l.sum)|
          = |((allocationWeights l).sum - l.sum) + (-a)| := by ring_nf
        _ ≤ |(allocationWeights l).sum - l.sum| + |(-a)| := abs_add _ _
        _ ≤ l.length * (1/1000 + 1/20000) + a := by
            rw [abs_neg, abs_of_nonneg ha]; linarith
        _ ≤ (l.length + 1) * (1/1000 + 1/20000) := by push_cast; linarith
        _ = ((l.length + 1 : ℕ) : ℚ) * (1/1000 + 1/20000) := by push_cast; ring

/-- C1: for every valid constraint set (`0 ≤ min_weight ≤ min(max_weight,
max_single_asset)`, at least `min_diversification` qualifying assets) for
which `optimize_portfolio` returns a result, the solver's weight vector sums
to 1 within `1e-6` and every component lies in
`[min_weight, min(max_weight, max_single_asset)]`; the reported allocation
(weights > 0.001 only, rounded to 4 decimals, lines 184-190) sums to
approximately 1: within `1e-6 + n·(0.001 + 5e-5)` of 1 for `n` assets. -/
theorem c1_optimizer_output_invariants (c : OptConstraints) (n : ℕ)
    (w : List ℚ) (hlo : 0 ≤ c.minWeight) (hhi : c.minWeight ≤ boundHi c)
    (hdiv : c.minDiversification ≤ n) (hsolver : slsqpSuccess c n w) :
    |w.sum - 1| ≤ 1/1000000 ∧
    (∀ x ∈ w, c.minWeight ≤ x ∧ x ≤ min c.maxWeight c.maxSingleAsset) ∧
    |(allocationWeights w).sum - 1| ≤ 1/1000000 + n * (1/1000 + 1/20000) := by
  obtain ⟨hlen, hbounds, hsum⟩ := hsolver
  refine ⟨hsum, hbounds, ?_⟩
  have h0 : ∀ x ∈ w, 0 ≤ x := fun x hx => le_trans hlo (hbounds x hx).1
  have hclose := allocationWeights_sum_close w h0
  rw [hlen] at hclose
  calc |(allocationWeights w).sum - 1|
      = |((allocationWeights w).sum - w.sum) + (w.sum - 1)| := by ring_nf
    _ ≤ |(allocationWeights w).sum - w.sum| + |w.sum - 1| := abs_add _ _
    _ ≤ n * (1/1000 + 1/20000) + 1/1000000 := by linarith
    _ = 1/1000000 + n * (1/1000 + 1/20000) := by ring

/-- Constraint set for the C1 witness: defaults with `min_diversification`
4. -/
def c1Constraints : OptConstraints :=
  { minWeight := 0, maxWeight := 1, maxSingleAsset := 3/10,
    minDiversification := 4 }

/-- C1 witness: the invariants instantiated at the equal-weight 4-asset
solver output. -/
theorem c1_witness :
    |([1/4, 1/4, 1/4, 1/4] : List ℚ).sum - 1| ≤ 1/1000000 ∧
    |(allocationWeights [1/4, 1/4, 1/4, 1/4]).sum - 1| ≤
      1/1000000 + 4 * (1/1000 + 1/20000) := by
  have hsolver : slsqpSuccess c1Constraints 4 [1/4, 1/4, 1/4, 1/4] := by
    refine ⟨rfl, ?_, by norm_num [List.sum_cons, List.sum_nil, abs_zero]⟩
    intro x hx
    simp only [List.mem_cons, List.not_mem_nil, or_false, or_self] at hx
    subst hx
    rw [boundLo, boundHi]
    constructor <;> norm_num [c1Constraints, min_def]
  have h := c1_optimizer_output_invariants c1Constraints 4 [1/4, 1/4, 1/4, 1/4]
    (by norm_num [c1Constraints])
    (by rw [boundHi]; norm_num [c1Constraints, min_def])
    (by norm_num [c1Constraints]) hsolver
  exact ⟨h.1, h.2.2⟩
